import Mathlib

/-!
Shallow embedding of the skip test harness (`tests/src/frontend/verify.py`
and `src/runtime/tools/common.py`) together with proofs about the
selection filter, expectation-file resolution, return-code checking,
the result ledger, baseline updating and output diffing.

Filesystem state is modelled explicitly: file existence as a predicate
`String → Bool`, file contents as a partial map `String → Option String`.
Python strings are Lean `String`s; functions from `os.path` and `str`
that the harness uses are re-implemented on `List Char` so that all
definitions reduce inside the kernel.
-/

namespace Skip

/-- Model of Python `str.endswith` (used on `.sk` paths and on
`.expectregex` expectation names in the harness). -/
def strEndsWith (s suffix : String) : Bool :=
  suffix.data.isSuffixOf s.data

/-- Model of Python `str.startswith` (used on splitext extensions in
`RunCommand.diff_file`). -/
def strStartsWith (s stem : String) : Bool :=
  stem.data.isPrefixOf s.data

/-- Split a character list just before its last occurrence of `sep`:
`splitAtLast sep l = some (front, sep :: back)` where `sep ∉ back`,
or `none` when `sep` does not occur. -/
def splitAtLast (sep : Char) : List Char → Option (List Char × List Char)
  | [] => none
  | c :: rest =>
    match splitAtLast sep rest with
    | some (front, back) => some (c :: front, back)
    | none => if c = sep then some ([], c :: rest) else none

/-- Model of `os.path.splitext` (posix): the extension is the suffix from
the last `.` of the basename, except that a basename consisting only of
leading dots up to that point has no extension. -/
def pySplitext (s : String) : String × String :=
  match splitAtLast '/' s.data with
  | some (front, sep :: base) =>
    (match splitAtLast '.' base with
     | some (stem, ext) =>
       if stem.any (fun c => c ≠ '.') then (⟨front ++ sep :: stem⟩, ⟨ext⟩) else (s, "")
     | none => (s, ""))
  | some (_, []) => (s, "")
  | none =>
    match splitAtLast '.' s.data with
    | some (stem, ext) =>
      if stem.any (fun c => c ≠ '.') then (⟨stem⟩, ⟨ext⟩) else (s, "")
    | none => (s, "")

/-- Characters removed by Python `str.rstrip()` with no argument
(ASCII whitespace). -/
def isPySpace (c : Char) : Bool :=
  c = ' ' || c = '\t' || c = '\n' || c = '\x0d' || c = '\x0b' || c = '\x0c'

/-- Model of Python `str.rstrip()`. -/
def pyRstrip (s : String) : String :=
  ⟨(s.data.reverse.dropWhile isPySpace).reverse⟩

/-! ## Selection filter (`verify.py`: `files_with_ext`, `list_test_files`) -/

/-- Model of `verify.files_with_ext`: the set of splitext stems of the
given names whose splitext extension equals `ext`.  The Python code
returns a `set`; only membership is ever used, so a list models it. -/
def files_with_ext (files : List String) (ext : String) : List String :=
  files.filterMap (fun f =>
    let pe := pySplitext f
    if pe.2 = ext then some pe.1 else none)

/-- A directory tree as seen by `os.listdir`/`os.path.isfile`/`os.path.isdir`:
`dangling` is a path that is neither a file nor a directory but is a
symlink (the broken-symlink case in `list_test_files`).  Children are
kept in the order `os.listdir` returns them. -/
inductive FSEntry where
  | file (name : String)
  | dangling (name : String)
  | dir (name : String) (children : List FSEntry)

/-- The basename of an entry. -/
def FSEntry.name : FSEntry → String
  | .file n => n
  | .dangling n => n
  | .dir n _ => n

/-- Model of `verify.list_test_files`.  `path` is the path of the entry
(the `root` argument of the Python function); children are visited at
`path ++ "/" ++ child.name` (`os.path.join`). -/
def list_test_files (disabled_ext : String) : FSEntry → String → List String
  | .file _ => fun path => if strEndsWith path ".sk" then [path] else []
  | .dangling _ => fun _ => []
  | .dir _ children => fun path =>
      let disabled := files_with_ext (children.map FSEntry.name) disabled_ext
      children.attach.flatMap (fun c =>
        if c.1.name = "disabled" || c.1.name = "failing" || c.1.name = "todo" then []
        else if disabled.contains c.1.name then []
        else list_test_files disabled_ext c.1 (path ++ "/" ++ c.1.name))
decreasing_by
  have := List.sizeOf_lt_of_mem c.2
  simp only [FSEntry.dir.sizeOf_spec]
  omega

/-! ## Parallel test driver (`verify.py`: `check_result`, `run_test_program`) -/

/-- Model of `verify.Failure` (a namedtuple). -/
structure Failure where
  fname : String
  expected : String
  output : String
deriving DecidableEq

/-- Model of the `re.sub` call in `check_result`, whose pattern is a
literal `.sk` anchored at the end: replace a trailing `.sk` by `repl`,
otherwise leave `fname` unchanged (test file names do not end in a
newline, so the dollar-before-final-newline subtlety of `re` does not
arise). -/
def subSkExt (repl fname : String) : String :=
  if strEndsWith fname ".sk" then ⟨fname.data.take (fname.data.length - 3)⟩ ++ repl else fname

/-- The expected text `check_result` compares against: the rstripped
content of the `.exp` sibling of the test file, or `""` when that file
does not exist (`FileNotFoundError` branch). -/
def expectedText (fs : String → Option String) (expect_exp fname : String) : String :=
  match fs (subSkExt expect_exp fname) with
  | some content => pyRstrip content
  | none => ""

/-- Model of `verify.check_result`. -/
def check_result (fs : String → Option String) (expect_exp fname out : String) :
    Option Failure :=
  if expectedText fs expect_exp fname ≠ out then
    some ⟨fname, expectedText fs expect_exp fname, out⟩
  else none

/-- The per-test output normalisation done in `run_test_program.run`:
the absolute path of the repository root inside the output is replaced
by the placeholder `<<root>>` and the result is rstripped.  `rootPath`
stands for that absolute path. -/
def normalizeOutput (rootPath output : String) : String :=
  pyRstrip (output.replace rootPath "<<root>>")

/-- Model of `verify.run_test_program`.  `rawOutput f` is the captured
stdout+stderr of the child process for test `f` (the same value whether
or not the child exited nonzero, per the `CalledProcessError` handler).
The executor is modelled by collecting the result of each future in
submission order, which is what the list comprehension over `futures`
does regardless of completion order. -/
def run_test_program (fs : String → Option String) (rootPath expect_ext : String)
    (rawOutput : String → String) (files : List String) : List Failure :=
  let results := files.map (fun f =>
    check_result fs expect_ext f (normalizeOutput rootPath (rawOutput f)))
  results.filterMap id

/-! ## RunCommand (`common.py`)

`dst_we` stands for the value of `RunCommand._computeDstWithoutExt(test)`
(a path derived from the binary directory via `realpath`, which lives
outside the harness logic and is passed in as data), and `pathExists`
models `os.path.exists`. -/

/-- Model of `common.backendName`.  An absent or empty backend is falsy
in Python and is modelled as `none`. -/
def backendName (name ext : String) (backend : Option String) : String :=
  match backend with
  | some b => name ++ "." ++ b ++ "." ++ ext
  | none => name ++ "." ++ ext

/-- One pass of the inner loop of `RunCommand._computeFilenames`: the
first of `dst_we ++ ext`, `src_we ++ ext` that exists (the inner `break`
stops at the first hit). -/
def expCandidate (pathExists : String → Bool) (dst_we src_we ext : String) :
    Option String :=
  ([dst_we, src_we].map (fun p => p ++ ext)).find? pathExists

/-- Model of the `exp_name` computation in `RunCommand._computeFilenames`:
`exp_name` starts as the source-side default and each pass of the outer
loop (first the configured expected extension, then `.expectregex`)
overwrites it when it finds an existing candidate, because the `break`
only leaves the inner loop. -/
def computeExpName (pathExists : String → Bool)
    (dst_we src_we expectedExtension : String) : String :=
  [expectedExtension, ".expectregex"].foldl
    (fun acc ext => (expCandidate pathExists dst_we src_we ext).getD acc)
    (src_we ++ expectedExtension)

/-- The filenames computed by `RunCommand._computeFilenames`. -/
structure Filenames where
  res_name : String
  stdout_name : String
  stderr_name : String
  testok_name : String
  failing_name : String
  exp_name : String
deriving DecidableEq

/-- Model of `RunCommand._computeFilenames`.  `src_we` is
`os.path.splitext(self.test)[0]`. -/
def computeFilenames (pathExists : String → Bool)
    (dst_we src_we expectedExtension : String) (backend : Option String) :
    Filenames where
  res_name := backendName dst_we "res" backend
  stdout_name := backendName dst_we "out" backend
  stderr_name := backendName dst_we "err" backend
  testok_name := backendName dst_we "testok" backend
  failing_name := backendName dst_we "testfail" backend
  exp_name := computeExpName pathExists dst_we src_we expectedExtension

/-- The flag state of a `RunCommand` after `__init__` (fields `test`,
`backend` and the computed `Filenames` are carried alongside;
`time_taken` is `None` until a run completes and is modelled in
abstract clock ticks since the harness never inspects its value). -/
structure CmdState where
  testReportsOk : Bool
  expectError : Bool
  testHasExpect : Bool
  manual_update_baseline : Bool
  returncode : Int
  time_taken : Option Int
  names : Filenames
deriving DecidableEq

/-- The observable side effects of `RunCommand.__init__`: the commands
spawned via `subprocess.Popen` and the artifact files opened for
writing. -/
structure InitResult where
  st : CmdState
  procs : List (List String)
  writes : List String

/-- Model of `RunCommand.__init__`.  `runProc` models `subprocess.Popen`
plus `p.wait()` and the surrounding clock reads: it maps the command to
its return code and elapsed time.  A `cmd` that is `None` or the empty
list is falsy, so the constructor returns before any process runs or
any artifact file is opened. -/
def runCommandInit (pathExists : String → Bool)
    (runProc : List String → Int × Int)
    (test : String) (cmd : Option (List String))
    (testReportsOk expectError testHasExpect : Bool)
    (backend : Option String) (expectedExtension : String)
    (manualUpdateBaseline : Bool) (dst_we : String) : InitResult :=
  let names := computeFilenames pathExists dst_we (pySplitext test).1
    expectedExtension backend
  let expectError := if pathExists (names.exp_name ++ "_failure") then true else expectError
  let st0 : CmdState :=
    { testReportsOk := testReportsOk
      expectError := expectError
      testHasExpect := testHasExpect && !testReportsOk
      manual_update_baseline := manualUpdateBaseline
      returncode := 1
      time_taken := none
      names := names }
  match cmd with
  | none => { st := st0, procs := [], writes := [] }
  | some [] => { st := st0, procs := [], writes := [] }
  | some c =>
    let r := runProc c
    { st := { st0 with returncode := r.1, time_taken := some r.2 }
      procs := [c]
      writes := [names.stdout_name, names.stderr_name, names.res_name] }

/-- Model of `RunCommand.checkReturnCode` restricted to its returned
success value (the failure branch additionally prints and writes a fail
marker). -/
def checkReturnCodeSuccess (returncode : Int) (expectError : Bool) : Bool :=
  let success := returncode == 0
  if expectError then !success else success

/-! ## Result ledger (`.res` JSON record) -/

/-- JSON values as they occur in the `.res` ledger: ints, bools, null and
the float `time_taken` (modelled in abstract ticks). -/
inductive Jval where
  | jint (n : Int)
  | jnum (t : Int)
  | jbool (b : Bool)
  | jnull
deriving DecidableEq

/-- Model of the `json.dump` at the end of `RunCommand.__init__`: the
five RunRecord fields as a JSON object (a key-value list). -/
def dumpRes (st : CmdState) : List (String × Jval) :=
  [("returncode", Jval.jint st.returncode),
   ("time_taken", match st.time_taken with
                  | some t => Jval.jnum t
                  | none => Jval.jnull),
   ("expectError", Jval.jbool st.expectError),
   ("testReportsOk", Jval.jbool st.testReportsOk),
   ("testHasExpect", Jval.jbool st.testHasExpect)]

/-- Read a mandatory bool field of the ledger (a missing key or a value
of the wrong shape raises in Python; the model returns `none`). -/
def getJBool : Option Jval → Option Bool
  | some (Jval.jbool b) => some b
  | _ => none

/-- Read a mandatory int field of the ledger. -/
def getJInt : Option Jval → Option Int
  | some (Jval.jint n) => some n
  | _ => none

/-- Read `time_taken` via `results.get`, which yields `None` both for a
missing key and for a JSON null. -/
def getJTime : Option Jval → Option Int
  | some (Jval.jnum t) => some t
  | _ => none

/-- Model of `RunCommand.fromArtifacts`: construct a `RunCommand` with
`cmd=None`, then, when the `.res` ledger file exists (`resContent` is
`some`), overwrite the five recorded fields (defaulting a missing
`testHasExpect` to the negation of `testReportsOk`); when it does not
exist, just set `returncode` to 127. -/
def fromArtifacts (pathExists : String → Bool)
    (resContent : Option (List (String × Jval)))
    (test : String) (backend : Option String) (dst_we : String) :
    Option InitResult :=
  let r := runCommandInit pathExists (fun _ => (0, 0)) test none
    false false true backend ".exp" false dst_we
  match resContent with
  | some results => do
    let trOk ← getJBool (results.lookup "testReportsOk")
    let hasExp ← match results.lookup "testHasExpect" with
                 | none => some (!trOk)
                 | v => getJBool v
    let expErr ← getJBool (results.lookup "expectError")
    let rc ← getJInt (results.lookup "returncode")
    some { r with st := { r.st with
             testReportsOk := trOk
             expectError := expErr
             testHasExpect := hasExp
             returncode := rc
             time_taken := getJTime (results.lookup "time_taken") } }
  | none =>
    some { r with st := { r.st with returncode := 127 } }

/-! ## Baseline comparator (`diff_file`, `report_diff`) -/

/-- Overwrite one file of the content map (`shutil.copyfile` target). -/
def fsWrite (fs : String → Option String) (name content : String) :
    String → Option String :=
  fun p => if p = name then some content else fs p

/-- Model of the `diff -u expected actual` subprocess in
`RunCommand.diff_file`: exit status is nonzero exactly when the two
file contents differ (both files exist on this code path; a missing
file is read as empty). -/
def diffFilesDiffer (fs : String → Option String) (expected actual : String) : Bool :=
  ((fs expected).getD "") != ((fs actual).getD "")

/-- Model of `RunCommand.diff_file` (returns `true` when the files are
considered different).  `rmatch pat text` models
`re.match(pat, text, flags=re.DOTALL + re.MULTILINE)` being truthy.
When the splitext extension of `expected` starts with `.expectregex`
and the whole pattern file matches, the files are considered equal;
otherwise — including a failed regex match — control falls through to
the literal `diff`. -/
def diff_file (rmatch : String → String → Bool) (fs : String → Option String)
    (actual expected : String) : Bool :=
  if strStartsWith (pySplitext expected).2 ".expectregex" then
    if rmatch ((fs expected).getD "") ((fs actual).getD "") then false
    else diffFilesDiffer fs expected actual
  else diffFilesDiffer fs expected actual

/-- Model of `RunCommand.report_diff` (returns the mismatch flag and the
filesystem after any baseline update).  `update_baseline` is
`ARGS.update_baseline`.  `isFileEmpty` reads the stderr file after the
stdout baseline has been copied, hence the reads from `fs1`. -/
def report_diff (rmatch : String → String → Bool) (update_baseline : Bool)
    (st : CmdState) (fs : String → Option String) :
    Bool × (String → Option String) :=
  if st.testReportsOk then (false, fs)
  else if !st.testHasExpect then (false, fs)
  else if (fs st.names.stdout_name).isNone then (true, fs)
  else if update_baseline && !st.manual_update_baseline
       && !(strEndsWith st.names.exp_name ".expectregex") then
    let fs1 := fsWrite fs st.names.exp_name ((fs st.names.stdout_name).getD "")
    let errContent := (fs1 st.names.stderr_name).getD ""
    let fs2 := if errContent != "" then
                 fsWrite fs1 (st.names.exp_name ++ "_err") errContent
               else fs1
    (false, fs2)
  else if (fs st.names.exp_name).isNone then (true, fs)
  else if diff_file rmatch fs st.names.stdout_name st.names.exp_name then (true, fs)
  else if (fs (st.names.exp_name ++ "_err")).isSome then
    (diff_file rmatch fs st.names.stderr_name (st.names.exp_name ++ "_err"), fs)
  else
    (((fs st.names.stderr_name).getD "") != "", fs)

/-! ## A fragment of Python regular expressions

`RunCommand.diff_file` delegates regex matching to the Python `re`
library, which is outside this repository; `diff_file` above therefore
takes the matcher as a parameter.  For concrete instances the fragment
below implements `re.match` with the `DOTALL` and `MULTILINE` flags for
patterns built from literal characters, `.`, `^`, `$` and a postfix `*`
on consuming items: `^` matches at the start of the text or right after
a newline, `$` matches at the end of the text or right before a
newline, `.` matches every character (including newline, per `DOTALL`),
and `re.match` anchors at position 0 but does not require the whole
text to be consumed. -/

/-- One regex atom of the fragment. -/
inductive RItem where
  | lit (c : Char)
  | dot
  | caret
  | dollar
deriving DecidableEq

/-- Whether a consuming atom matches one character (`DOTALL` makes `.`
match newline as well). -/
def itemMatchesChar : RItem → Char → Bool
  | .lit a, c => a == c
  | .dot, _ => true
  | .caret, _ => false
  | .dollar, _ => false

/-- Whether the current position is a `MULTILINE` line start; `prev` is
the character just before the position (`none` at the start of the
text). -/
def atLineStart : Option Char → Bool
  | none => true
  | some c => c == '\n'

/-- Whether the current position is a `MULTILINE` line end. -/
def atLineEnd : List Char → Bool
  | [] => true
  | c :: _ => c == '\n'

/-- Match `i*` followed by the continuation `cont`: try the continuation
at every position reachable by consuming characters matched by `i`. -/
def starLoop (i : RItem) (cont : Option Char → List Char → Bool) :
    Option Char → List Char → Bool
  | prev, [] => cont prev []
  | prev, c :: rest =>
    cont prev (c :: rest) || (itemMatchesChar i c && starLoop i cont (some c) rest)

/-- Match a parsed pattern against the text starting at the current
position (existential backtracking semantics, as `re`). -/
def reMatchList : List (RItem × Bool) → Option Char → List Char → Bool
  | [] => fun _ _ => true
  | (i, starred) :: ps => fun prev text =>
    if starred then starLoop i (fun pr tx => reMatchList ps pr tx) prev text
    else
      match i with
      | .caret => atLineStart prev && reMatchList ps prev text
      | .dollar => atLineEnd text && reMatchList ps prev text
      | _ =>
        match text with
        | [] => false
        | c :: rest => itemMatchesChar i c && reMatchList ps (some c) rest

/-- Metacharacters of `re` that are outside the modelled fragment. -/
def reMeta : List Char :=
  ['*', '+', '?', '(', ')', '[', ']', '\\', '|', '\x7b', '\x7d']

/-- The atom denoted by one pattern character of the fragment. -/
def parseItem (c : Char) : RItem :=
  if c == '.' then RItem.dot
  else if c == '^' then RItem.caret
  else if c == '$' then RItem.dollar
  else RItem.lit c

/-- Parse a pattern of the fragment; `none` for patterns that use `re`
features outside it (including a `*` on a zero-width anchor, which `re`
rejects as having nothing to repeat). -/
def parseRE : List Char → Option (List (RItem × Bool))
  | [] => some []
  | c :: '*' :: rest2 =>
    if reMeta.contains c || c == '^' || c == '$' then none
    else (parseRE rest2).map (fun l => (parseItem c, true) :: l)
  | c :: rest =>
    if reMeta.contains c then none
    else (parseRE rest).map (fun l => (parseItem c, false) :: l)

/-- `re.match(pat, text, flags=re.DOTALL + re.MULTILINE)` as a boolean,
for patterns of the fragment (`false` outside it). -/
def reMatchPy (pat text : String) : Bool :=
  match parseRE pat.data with
  | some p => reMatchList p none text.data
  | none => false

/-! ## Claims -/

/-- C3: for every completed run and all combinations of return code and
`expectError`, `checkReturnCode` reports success exactly when
`(returncode == 0) != expectError`. -/
theorem checkReturnCode_xor (returncode : Int) (expectError : Bool) :
    checkReturnCodeSuccess returncode expectError
      = ((returncode == 0) != expectError) := by
  cases expectError <;> simp [checkReturnCodeSuccess]

/-- C4: reconstructing a test via `fromArtifacts` (command omitted) whose
`.res` ledger file does not exist yields return code 127, executes no
child process and writes no artifact file. -/
theorem fromArtifacts_missing_ledger (pathExists : String → Bool)
    (test : String) (backend : Option String) (dst_we : String) :
    (fromArtifacts pathExists none test backend dst_we).map
      (fun r => (r.st.returncode, r.procs, r.writes))
      = some (127, [], []) := rfl

/-- C6: the five RunRecord fields written to the `.res` ledger by the end
of a run are reconstructed identically by an immediately following
`fromArtifacts` (round-trip law). -/
theorem resLedger_roundtrip (pathExists : String → Bool) (st : CmdState)
    (test : String) (backend : Option String) (dst_we : String) :
    (fromArtifacts pathExists (some (dumpRes st)) test backend dst_we).map
      (fun r => (r.st.returncode, r.st.time_taken, r.st.expectError,
                 r.st.testReportsOk, r.st.testHasExpect))
      = some (st.returncode, st.time_taken, st.expectError,
              st.testReportsOk, st.testHasExpect) := by
  cases h : st.time_taken <;>
    simp [fromArtifacts, dumpRes, runCommandInit, getJBool, getJInt, getJTime,
          List.lookup, h]

/-- Modelled from the words of the C2 claim (for comparison with
`computeExpName`, which is translated from the code): check, in order,
the destination-side then the source-side candidate for the configured
extension, then the destination-side then the source-side candidate for
`.expectregex`, and let the first existing candidate win. -/
def specExpNameFirstWins (pathExists : String → Bool)
    (dst_we src_we expectedExtension : String) : String :=
  (([dst_we ++ expectedExtension, src_we ++ expectedExtension,
     dst_we ++ ".expectregex", src_we ++ ".expectregex"]).find? pathExists).getD
    (src_we ++ expectedExtension)

/-- C2 counterexample: when both `dst.exp` and `dst.expectregex` exist,
the code resolves to `dst.expectregex` while the claimed first-wins
order resolves to `dst.exp`. -/
theorem computeExpName_counterexample :
    computeExpName (fun p => p == "build/t.exp" || p == "build/t.expectregex")
        "build/t" "t" ".exp" = "build/t.expectregex"
    ∧ specExpNameFirstWins (fun p => p == "build/t.exp" || p == "build/t.expectregex")
        "build/t" "t" ".exp" = "build/t.exp" := by decide

/-- C2 amended: because the inner `break` does not leave the outer loop,
the `.expectregex` pass overwrites the result of the first pass;
resolution is therefore equivalent to taking the first existing
candidate of `dst.expectregex`, `src.expectregex`, `dst.<ext>`,
`src.<ext>`, with the source-side `<ext>` name as the default. -/
theorem computeExpName_order (pathExists : String → Bool)
    (dst_we src_we expExt : String) :
    computeExpName pathExists dst_we src_we expExt =
      (([dst_we ++ ".expectregex", src_we ++ ".expectregex",
         dst_we ++ expExt, src_we ++ expExt]).find? pathExists).getD
        (src_we ++ expExt) := by
  cases h1 : pathExists (dst_we ++ ".expectregex") <;>
  cases h2 : pathExists (src_we ++ ".expectregex") <;>
  cases h3 : pathExists (dst_we ++ expExt) <;>
  cases h4 : pathExists (src_we ++ expExt) <;>
  simp [computeExpName, expCandidate, h1, h2, h3, h4]

/-- The directory of the C1 scenario: files `a.sk`, `a.no_typecheck`,
`b.sk` and a subdirectory `disabled` containing `c.sk`, listed in this
order. -/
def c1Tree : FSEntry :=
  .dir "tests"
    [.file "a.sk", .file "a.no_typecheck", .file "b.sk",
     .dir "disabled" [.file "c.sk"]]

/-- The same directory with the marker named after the full test file
name, `a.sk.no_typecheck`. -/
def c1TreeFull : FSEntry :=
  .dir "tests"
    [.file "a.sk", .file "a.sk.no_typecheck", .file "b.sk",
     .dir "disabled" [.file "c.sk"]]

/-- C1 counterexample: on the claimed directory the filter returns
`a.sk` as well, because the disabling check compares the full child
name `a.sk` against the splitext stem `a` of `a.no_typecheck`, which do
not coincide; the result is not the one-element list `[b.sk]`. -/
theorem list_test_files_counterexample :
    list_test_files ".no_typecheck" c1Tree "tests"
        = ["tests/a.sk", "tests/b.sk"]
    ∧ list_test_files ".no_typecheck" c1Tree "tests" ≠ ["tests/b.sk"] := by
  have h : list_test_files ".no_typecheck" c1Tree "tests"
      = ["tests/a.sk", "tests/b.sk"] := by
    simp [list_test_files, c1Tree]
    decide
  refine ⟨h, ?_⟩
  rw [h]
  decide

/-- C1 amended: the opt-out marker must be the full file name plus the
disabled extension: with `a.sk.no_typecheck` as the marker the filter
prunes the `disabled` directory, excludes `a.sk` and returns exactly
`[b.sk]`. -/
theorem list_test_files_full_marker :
    list_test_files ".no_typecheck" c1TreeFull "tests" = ["tests/b.sk"] := by
  simp [list_test_files, c1TreeFull]
  decide

/-- Appending the `_err` suffix changes a file name. -/
theorem string_append_err_ne (s : String) : s ++ "_err" ≠ s := by
  intro h
  have hlen := congrArg String.length h
  rw [String.length_append] at hlen
  have h4 : ("_err" : String).length = 4 := rfl
  omega

/-- A run state whose resolved expectation file is a `.expectregex`
(used against the baseline-update claim). -/
def c5St : CmdState where
  testReportsOk := false
  expectError := false
  testHasExpect := true
  manual_update_baseline := false
  returncode := 0
  time_taken := some 1
  names :=
    { res_name := "build/t.native.res"
      stdout_name := "build/t.native.out"
      stderr_name := "build/t.native.err"
      testok_name := "build/t.native.testok"
      failing_name := "build/t.native.testfail"
      exp_name := "t.expectregex" }

/-- Disk contents for the C5 counterexample: the actual output differs
from the regex expectation. -/
def c5Fs : String → Option String := fun p =>
  if p == "build/t.native.out" then some "actual\n"
  else if p == "build/t.native.err" then some ""
  else if p == "t.expectregex" then some "zzz"
  else none

/-- C5 counterexample: with baseline-update mode enabled but a
`.expectregex` expectation whose pattern does not match, `report_diff`
reports a mismatch and leaves the expectation file untouched, so the
mode is not unconditional. -/
theorem report_diff_update_baseline_counterexample :
    (report_diff reMatchPy true c5St c5Fs).1 = true
    ∧ (report_diff reMatchPy true c5St c5Fs).2 "t.expectregex" = some "zzz" := by
  decide

/-- C5 amended: baseline-update mode overwrites the expectation file
with the actual stdout and copies a non-empty stderr to the `_err`
sibling and reports no mismatch, provided the test is a diffing test,
the per-command manual-update flag is unset, the resolved expectation
file is not a `.expectregex`, and the stdout artifact exists. -/
theorem report_diff_update_baseline (rmatch : String → String → Bool)
    (st : CmdState) (fs : String → Option String) (outText errText : String)
    (h1 : st.testReportsOk = false) (h2 : st.testHasExpect = true)
    (h3 : st.manual_update_baseline = false)
    (h4 : strEndsWith st.names.exp_name ".expectregex" = false)
    (h5 : fs st.names.stdout_name = some outText)
    (h6 : fs st.names.stderr_name = some errText)
    (h7 : st.names.stderr_name ≠ st.names.exp_name) :
    (report_diff rmatch true st fs).1 = false
    ∧ (report_diff rmatch true st fs).2 st.names.exp_name = some outText
    ∧ (errText ≠ "" →
        (report_diff rmatch true st fs).2 (st.names.exp_name ++ "_err")
          = some errText)
    ∧ (errText = "" →
        (report_diff rmatch true st fs).2 (st.names.exp_name ++ "_err")
          = fs (st.names.exp_name ++ "_err")) := by
  have hne := string_append_err_ne st.names.exp_name
  have hne' := hne.symm
  by_cases he : errText = ""
  · subst he
    simp [report_diff, h1, h2, h3, h4, h5, h6, h7, fsWrite, hne, hne']
  · simp [report_diff, h1, h2, h3, h4, h5, h6, h7, he, fsWrite, hne, hne']

/-- A run state for the baseline-update witness, with a literal `.exp`
expectation. -/
def c5WSt : CmdState where
  testReportsOk := false
  expectError := false
  testHasExpect := true
  manual_update_baseline := false
  returncode := 0
  time_taken := some 1
  names :=
    { res_name := "build/t.native.res"
      stdout_name := "build/t.native.out"
      stderr_name := "build/t.native.err"
      testok_name := "build/t.native.testok"
      failing_name := "build/t.native.testfail"
      exp_name := "t.exp" }

/-- Disk contents for the C5 witness: stale expectation, non-empty
stderr. -/
def c5WFs : String → Option String := fun p =>
  if p == "build/t.native.out" then some "hello\n"
  else if p == "build/t.native.err" then some "oops"
  else if p == "t.exp" then some "stale"
  else none

/-- C5 witness: the amended baseline-update behaviour at a concrete
state. -/
theorem report_diff_update_baseline_witness :
    (report_diff reMatchPy true c5WSt c5WFs).1 = false
    ∧ (report_diff reMatchPy true c5WSt c5WFs).2 c5WSt.names.exp_name
        = some "hello\n"
    ∧ ("oops" ≠ "" →
        (report_diff reMatchPy true c5WSt c5WFs).2 (c5WSt.names.exp_name ++ "_err")
          = some "oops")
    ∧ ("oops" = "" →
        (report_diff reMatchPy true c5WSt c5WFs).2 (c5WSt.names.exp_name ++ "_err")
          = c5WFs (c5WSt.names.exp_name ++ "_err")) :=
  report_diff_update_baseline reMatchPy c5WSt c5WFs "hello\n" "oops"
    (by decide) (by decide) (by decide) (by decide) (by decide) (by decide)
    (by decide)

/-- Disk contents for the C7 counterexample: the pattern file and the
actual output are byte-identical, but the pattern does not match itself
as a regex. -/
def c7Fs : String → Option String := fun p =>
  if p == "build/t.out" then some "^^a"
  else if p == "t.expectregex" then some "^^a"
  else none

/-- C7 counterexample: `diff_file` reports a match (returns no
difference) although the regex does not match the actual text, because
a failed regex match falls through to the literal diff and the two
files happen to be identical; the claimed iff is false at this input. -/
theorem diff_file_regex_counterexample :
    diff_file reMatchPy c7Fs "build/t.out" "t.expectregex" = false
    ∧ reMatchPy "^^a" "^^a" = false := by decide

/-- Disk contents for the claimed positive C7 example: the pattern
`^Hello.*$` against the actual output `Hello world\n`. -/
def c7HelloFs : String → Option String := fun p =>
  if p == "build/t.out" then some "Hello world\n"
  else if p == "t.expectregex" then some "^Hello.*$"
  else none

/-- Disk contents for the claimed negative C7 example: the pattern
`^Hello.*$` against the actual output `Goodbye\n`. -/
def c7GoodbyeFs : String → Option String := fun p =>
  if p == "build/t.out" then some "Goodbye\n"
  else if p == "t.expectregex" then some "^Hello.*$"
  else none

/-- C7 amended: for a regex expectation, `diff_file` reports a match iff
the whole pattern file (DOTALL, MULTILINE, anchored at the start via
`match`) matches the actual output, or the two files are byte-identical
(a failed regex match falls through to the literal diff); in
particular, under those `re.match` semantics the pattern `^Hello.*$`
matches `Hello world\n` — so `diff_file` reports a match there — and
fails on `Goodbye\n` — where `diff_file` reports a mismatch. -/
theorem diff_file_regex (rmatch : String → String → Bool)
    (fs : String → Option String) (actual expected : String)
    (hreg : strStartsWith (pySplitext expected).2 ".expectregex" = true) :
    (diff_file rmatch fs actual expected = false ↔
      (rmatch ((fs expected).getD "") ((fs actual).getD "") = true
       ∨ (fs expected).getD "" = (fs actual).getD ""))
    ∧ reMatchPy "^Hello.*$" "Hello world\n" = true
    ∧ diff_file reMatchPy c7HelloFs "build/t.out" "t.expectregex" = false
    ∧ reMatchPy "^Hello.*$" "Goodbye\n" = false
    ∧ diff_file reMatchPy c7GoodbyeFs "build/t.out" "t.expectregex" = true := by
  refine ⟨?_, by decide, by decide, by decide, by decide⟩
  cases h : rmatch ((fs expected).getD "") ((fs actual).getD "") <;>
    simp [diff_file, diffFilesDiffer, hreg, h]

/-- C7 witness: the amended statement at the concrete pattern file from
the claim, whose regex matches the actual output. -/
theorem diff_file_regex_witness :
    strStartsWith (pySplitext "t.expectregex").2 ".expectregex" = true
    ∧ ((diff_file reMatchPy c7HelloFs "build/t.out" "t.expectregex" = false ↔
        (reMatchPy ((c7HelloFs "t.expectregex").getD "")
            ((c7HelloFs "build/t.out").getD "") = true
         ∨ (c7HelloFs "t.expectregex").getD ""
             = (c7HelloFs "build/t.out").getD ""))
       ∧ reMatchPy "^Hello.*$" "Hello world\n" = true
       ∧ diff_file reMatchPy c7HelloFs "build/t.out" "t.expectregex" = false
       ∧ reMatchPy "^Hello.*$" "Goodbye\n" = false
       ∧ diff_file reMatchPy c7GoodbyeFs "build/t.out" "t.expectregex" = true) :=
  ⟨by decide,
   diff_file_regex reMatchPy c7HelloFs "build/t.out" "t.expectregex" (by decide)⟩

/-- C8: in comparison mode, when no `_err` sidecar expectation exists
and the stdout diff passed, `report_diff` reports a mismatch exactly
when the captured stderr is non-empty, and writes nothing. -/
theorem report_diff_stderr_no_sidecar (rmatch : String → String → Bool)
    (st : CmdState) (fs : String → Option String) (outText expText errText : String)
    (h1 : st.testReportsOk = false) (h2 : st.testHasExpect = true)
    (h3 : fs st.names.stdout_name = some outText)
    (h4 : fs st.names.exp_name = some expText)
    (h5 : diff_file rmatch fs st.names.stdout_name st.names.exp_name = false)
    (h6 : fs (st.names.exp_name ++ "_err") = none)
    (h7 : fs st.names.stderr_name = some errText) :
    ((report_diff rmatch false st fs).1 = true ↔ errText ≠ "")
    ∧ (report_diff rmatch false st fs).2 = fs := by
  simp [report_diff, h1, h2, h3, h4, h5, h6, h7]

/-- A run state for the C8 witness. -/
def c8St : CmdState where
  testReportsOk := false
  expectError := false
  testHasExpect := true
  manual_update_baseline := false
  returncode := 0
  time_taken := some 1
  names :=
    { res_name := "build/t.native.res"
      stdout_name := "build/t.native.out"
      stderr_name := "build/t.native.err"
      testok_name := "build/t.native.testok"
      failing_name := "build/t.native.testfail"
      exp_name := "t.exp" }

/-- Disk contents for the C8 witness: matching stdout, empty stderr, no
`_err` sidecar. -/
def c8Fs : String → Option String := fun p =>
  if p == "build/t.native.out" then some "hello\n"
  else if p == "build/t.native.err" then some ""
  else if p == "t.exp" then some "hello\n"
  else none

/-- C8 witness: with matching stdout and empty stderr the test is
reported as passing. -/
theorem report_diff_stderr_no_sidecar_witness :
    ((report_diff reMatchPy false c8St c8Fs).1 = true ↔ ("" : String) ≠ "")
    ∧ (report_diff reMatchPy false c8St c8Fs).2 = c8Fs :=
  report_diff_stderr_no_sidecar reMatchPy c8St c8Fs "hello\n" "hello\n" ""
    (by decide) (by decide) (by decide) (by decide) (by decide) (by decide)
    (by decide)

/-- C9: the failure list returned by `run_test_program` is the ordered
subsequence of the input file list consisting of exactly the files
whose normalised output differs from their expected text, independent
of worker completion order (results are collected per future in
submission order). -/
theorem run_test_program_order (fs : String → Option String)
    (rootPath expect_ext : String) (rawOutput : String → String)
    (files : List String) :
    (run_test_program fs rootPath expect_ext rawOutput files).map Failure.fname
      = files.filter (fun f =>
          expectedText fs expect_ext f != normalizeOutput rootPath (rawOutput f)) := by
  induction files with
  | nil => rfl
  | cons f rest ih =>
    by_cases h : expectedText fs expect_ext f
        = normalizeOutput rootPath (rawOutput f)
    · simpa [run_test_program, check_result, h] using ih
    · simpa [run_test_program, check_result, h] using ih

/-- The filesystem of the C10 scenario: only the expect-failure marker
of the resolved expectation file `t.exp` exists. -/
def c10PathExists : String → Bool := fun p => p == "t.exp_failure"

/-- A `.res` ledger recording `expectError` as false (as written by a
run that predates the marker file). -/
def c10Ledger : List (String × Jval) :=
  [("returncode", Jval.jint 0), ("time_taken", Jval.jnull),
   ("expectError", Jval.jbool false), ("testReportsOk", Jval.jbool false),
   ("testHasExpect", Jval.jbool true)]

/-- C10 counterexample: for the read-only reconstruction, when the
`.res` ledger exists its recorded `expectError` overwrites the value
the constructor forced, so despite the `_failure` marker the
reconstructed run is not treated as expect-error. -/
theorem fromArtifacts_marker_counterexample :
    c10PathExists ("t.exp" ++ "_failure") = true
    ∧ (fromArtifacts c10PathExists (some c10Ledger) "t.sk" none "build/t").map
        (fun r => (r.st.names.exp_name, r.st.expectError))
        = some ("t.exp", false) := by decide

/-- C10 amended: during `__init__` itself — in every construction,
including the one performed by `fromArtifacts` — an existing
`<exp_name>_failure` file forces `expectError` to true regardless of
the constructor argument, inverting the success rule; a subsequent
ledger load in `fromArtifacts` may overwrite the flag with the recorded
value. -/
theorem runCommandInit_failure_marker (pathExists : String → Bool)
    (runProc : List String → Int × Int) (test : String)
    (cmd : Option (List String))
    (testReportsOk expectError testHasExpect : Bool) (backend : Option String)
    (expectedExtension : String) (manualUpdateBaseline : Bool)
    (dst_we : String) (rc : Int)
    (h : pathExists
        ((computeFilenames pathExists dst_we (pySplitext test).1
            expectedExtension backend).exp_name ++ "_failure") = true) :
    (runCommandInit pathExists runProc test cmd testReportsOk expectError
        testHasExpect backend expectedExtension manualUpdateBaseline
        dst_we).st.expectError = true
    ∧ checkReturnCodeSuccess rc
        ((runCommandInit pathExists runProc test cmd testReportsOk expectError
            testHasExpect backend expectedExtension manualUpdateBaseline
            dst_we).st.expectError) = !(rc == 0) := by
  have hE : (runCommandInit pathExists runProc test cmd testReportsOk
      expectError testHasExpect backend expectedExtension
      manualUpdateBaseline dst_we).st.expectError = true := by
    rcases cmd with _ | ⟨_ | ⟨c, cs⟩⟩ <;> simp [runCommandInit, h]
  rw [hE]
  exact ⟨rfl, by simp [checkReturnCodeSuccess]⟩

/-- C10 witness: the forced expect-error flag at a concrete
construction whose marker file exists. -/
theorem runCommandInit_failure_marker_witness :
    (runCommandInit c10PathExists (fun _ => (0, 0)) "t.sk" none false false
        true none ".exp" false "build/t").st.expectError = true
    ∧ checkReturnCodeSuccess 3
        ((runCommandInit c10PathExists (fun _ => (0, 0)) "t.sk" none false
            false true none ".exp" false "build/t").st.expectError)
        = !((3 : Int) == 0) :=
  runCommandInit_failure_marker c10PathExists (fun _ => (0, 0)) "t.sk" none
    false false true none ".exp" false "build/t" 3 (by decide)

end Skip
